import Mathlib

/-!
Shallow per-pixel embedding of `src/render/render.py` (pixel shader `shade`,
depth-peeled compositor `render_mesh`, UV renderer `render_uv`).

All tensor operations in the source are elementwise over the last (channel)
dimension, so a pixel is modelled as its channel vector `List ℚ` (machine
floats are abstracted as rationals).  External collaborators (texture/MLP
samplers, `dr.texture` taps, `ru.prepare_shading_normal`, the OptiX Monte
Carlo integrator, the analytic environment light and the denoiser) are
modelled as inputs: their per-pixel outputs are fields of `Externals` or
constructor arguments of `MaterialChannels`.
-/

namespace Render

/-- Light variants. Modelled from the spec: `light.py` is not under `src/`;
§3 of the spec describes the two variants "environment light" (analytic) and
"OptiX environment light" as distinct, so the two `isinstance` tests in
`shade` are modelled as tests against disjoint constructors. -/
inductive Light where
  | env
  | envOptix
  deriving DecidableEq

/-- Which material-channel keys are present, together with the per-pixel
values produced by the external samplers (center sample and jittered sample).
Mirrors the `'kd_ks_normal' in material` / `'radiance' in material` / classic
`kd`,`ks`,(`normal`) dispatch of `shade` lines 61-91. -/
inductive MaterialChannels where
  /-- `material['kd_ks_normal'].sample(cano_pos,...)` and the jittered sample. -/
  | combined (tex texJitter : List ℚ)
  /-- `material['radiance'].sample(cano_pos, view_dir,...)` and the jittered sample. -/
  | radiance (tex texJitter : List ℚ)
  /-- raw `material['kd'].sample`, its jittered sample, raw `material['ks'].sample`,
  its jittered sample, and the optional `material['normal'].sample`. -/
  | classic (kdS kdJ ksS ksJ : List ℚ) (normalTex : Option (List ℚ))
  deriving DecidableEq

/-- The material mapping: channel samplers plus the optional `'bsdf'` key and
the `'no_perturbed_nrm'` flag (`'no_perturbed_nrm' in material and
material['no_perturbed_nrm']`). -/
structure Material where
  channels : MaterialChannels
  bsdf : Option String
  no_perturbed_nrm : Bool
  deriving DecidableEq

/-- Per-pixel outputs of the external collaborators invoked by `shade`. -/
structure Externals where
  /-- `dr.texture(mask, jitter, ...)` at this pixel (line 54). -/
  mask_tap : ℚ
  /-- `dr.texture(gb_normal, jitter, ...)` at this pixel (line 104). -/
  nrm_jitter : List ℚ
  /-- `ru.prepare_shading_normal(gb_pos, view_pos, perturbed_nrm, gb_normal,
  gb_tangent, gb_geometric_normal, ...)` (line 112), as a function of the
  (possibly discarded) perturbed normal. -/
  prepare_shading_normal : Option (List ℚ) → List ℚ
  /-- `ou.optix_env_shade(..., rnd_seed=seed, ...)` at this pixel, as a
  function of the seed it is given: `(diffuse_accum, specular_accum)`. -/
  optixShade : ℕ → List ℚ × List ℚ
  /-- `lgt.shade(gb_pos, gb_normal, kd, ks, view_pos, specular=b)`. -/
  analyticShade : Bool → List ℚ
  /-- `denoiser.forward(cat(signal, gb_normal, gb_depth))`. -/
  denoise : List ℚ → List ℚ

/-- `torch.abs(a - b)` elementwise. -/
def absDiff (a b : List ℚ) : List ℚ := List.zipWith (fun x y => |x - y|) a b

/-- `torch.tensor([0, 1, 1])`, the specular-gradient channel mask of
lines 71 and 91. -/
def mask001 : List ℚ := [0, 1, 1]

/-- Result of the texture-lookup section of `shade` (lines 60-91). -/
structure TexOut where
  kd : List ℚ
  ks : List ℚ
  perturbed_nrm : Option (List ℚ)
  kd_grad : List ℚ
  ks_grad : List ℚ
  deriving DecidableEq

/-- Texture lookups, `shade` lines 60-91.  Negative slices `t[..., :-6]`,
`t[..., -6:-3]`, `t[..., -3:]` become `take (n-6)`, `drop (n-6) |>.take 3`,
`drop (n-3)` on each tensor's own length.  The combined branch carries the
`assert all_tex.shape[-1] == 9 or all_tex.shape[-1] == 10` of line 67. -/
def texture_lookups : MaterialChannels → Except String TexOut
  | .combined tex texJitter =>
    if tex.length = 9 ∨ tex.length = 10 then
      .ok { kd := tex.take (tex.length - 6)
            ks := (tex.drop (tex.length - 6)).take 3
            perturbed_nrm := some (tex.drop (tex.length - 3))
            kd_grad := absDiff (texJitter.take (texJitter.length - 6))
                               (tex.take (tex.length - 6))
            ks_grad := List.zipWith (· * ·)
                         (absDiff ((texJitter.drop (texJitter.length - 6)).take 3)
                                  ((tex.drop (tex.length - 6)).take 3)) mask001 }
    else .error "Combined kd_ks_normal must be 9 or 10 channels"
  | .radiance tex texJitter =>
    -- kd_grad is computed as |jitter - tex| and then overwritten by zeros (lines 80-82)
    .ok { kd := tex
          ks := tex.map (fun _ => 0)
          perturbed_nrm := none
          kd_grad := (absDiff texJitter tex).map (fun _ => 0)
          ks_grad := (absDiff texJitter tex).map (fun _ => 0) }
  | .classic kdS kdJ ksS ksJ normalTex =>
    -- lines 84-91: ks samples are sliced [..., 0:3] at sampling time and the
    -- gradients slice [..., 0:3] again
    .ok { kd := kdS
          ks := ksS.take 3
          perturbed_nrm := normalTex
          kd_grad := absDiff (kdJ.take 3) (kdS.take 3)
          ks_grad := List.zipWith (· * ·)
                       (absDiff ((ksJ.take 3).take 3) ((ksS.take 3).take 3)) mask001 }

/-- Line 94: `alpha = kd[..., 3:4] if kd.shape[-1] == 4 else
torch.ones_like(kd[..., 0:1])`. -/
def albedoAlpha (kdFull : List ℚ) : List ℚ :=
  if kdFull.length = 4 then (kdFull.drop 3).take 1
  else (kdFull.take 1).map (fun _ => (1 : ℚ))

/-- Line 118-119: the override argument wins, otherwise the material's
`'bsdf'` key; `none` means the assertion of line 118 fires. -/
def resolveBsdf (material : Material) (bsdf : Option String) : Option String :=
  match bsdf with
  | some b => some b
  | none => material.bsdf

/-- The three Monte Carlo BSDF tags of line 120. -/
def isOptixTag (tag : String) : Bool :=
  tag == "pbr-optix" || tag == "diffuse-optix" || tag == "white-optix"

/-- The BSDF tags `shade` knows (lines 120-167); anything else hits the
`assert False, "Invalid BSDF"` of line 169. -/
def knownTags : List String :=
  ["pbr-optix", "diffuse-optix", "white-optix", "pbr", "diffuse",
   "radiance", "normal", "tangent", "corr", "kd", "ks"]

/-- BSDF dispatch, `shade` lines 120-169.  Returns the shaded color, the
optional `(diffuse_accum, specular_accum)` pair (present exactly when an
`-optix` branch ran, line 183-186 checks `'diffuse_accum' in locals()`), and
the updated global `rnd_seed`. -/
def shadeDispatch (ex : Externals) (tag : String) (lgt : Light)
    (optix_ctx denoiser : Bool) (kd ks nrm tangent depth : List ℚ)
    (cano_pos : Option (List ℚ)) (seed : ℕ) :
    Except String (List ℚ × Option (List ℚ × List ℚ) × ℕ) :=
  if tag = "pbr-optix" ∨ tag = "diffuse-optix" ∨ tag = "white-optix" then
    let kd := if tag = "white-optix" then kd.map (fun _ => (1 : ℚ)) else kd
    if lgt = Light.envOptix ∧ optix_ctx then
      let acc := ex.optixShade seed
      -- line 130: rnd_seed += 1, after the integrator call
      let diffuse_accum := if denoiser then ex.denoise (acc.1 ++ nrm ++ depth) else acc.1
      let specular_accum := if denoiser then ex.denoise (acc.2 ++ nrm ++ depth) else acc.2
      let shaded_col :=
        if tag = "white-optix" ∨ tag = "diffuse-optix" then
          List.zipWith (· * ·) diffuse_accum kd
        else
          -- kd = kd * (1.0 - ks[..., 2:3]); shaded = diffuse*kd + specular
          List.zipWith (· + ·)
            (List.zipWith (· * ·) diffuse_accum (kd.map (· * (1 - ks.getD 2 0))))
            specular_accum
      let shaded_col := if denoiser then ex.denoise (shaded_col ++ nrm ++ depth) else shaded_col
      .ok (shaded_col, some (diffuse_accum, specular_accum), seed + 1)
    else .error "AssertionError"
  else if tag = "pbr" then
    if lgt = Light.env then .ok (ex.analyticShade true, none, seed)
    else .error "Invalid light type"
  else if tag = "diffuse" then
    if lgt = Light.env then .ok (ex.analyticShade false, none, seed)
    else .error "Invalid light type"
  else if tag = "radiance" then .ok (kd, none, seed)
  else if tag = "normal" then .ok (nrm.map (fun x => (x + 1) * (1/2)), none, seed)
  else if tag = "tangent" then .ok (tangent.map (fun x => (x + 1) * (1/2)), none, seed)
  else if tag = "corr" then
    match cano_pos with
    | some cp => .ok ((List.zipWith (· + ·) cp [1, 14/10, 1]).map (· * (1/2)), none, seed)
    | none => .error "TypeError: unsupported operand"
  else if tag = "kd" then .ok (kd, none, seed)
  else if tag = "ks" then .ok (ks, none, seed)
  else .error ("Invalid BSDF " ++ tag)

/-- The returned buffer mapping, `shade` lines 172-187 (insertion order of
the Python dict is kept).  `alpha` is the singleton alpha channel. -/
def mkBuffers (shaded_col kd_grad ks_grad nrm_grad ks gb_pos gb_normal alpha : List ℚ)
    (optixBufs : Option (List ℚ × List ℚ)) : List (String × List ℚ) :=
  [("shaded", shaded_col ++ alpha),
   ("kd_grad", kd_grad ++ alpha),
   ("ks_grad", ks_grad ++ alpha),
   ("normal_grad", nrm_grad ++ alpha),
   ("occlusion", ks.take 1 ++ alpha),
   ("gb_pos", gb_pos ++ alpha),
   ("gb_normal", gb_normal ++ alpha)]
  ++ (match optixBufs with
      | some ds => [("diffuse_light", ds.1 ++ alpha), ("specular_light", ds.2 ++ alpha)]
      | none => [])

/-- Lines 63-64 / 73-74: the function-local `cano_pos` is reassigned to
`gb_pos` when absent, inside the combined and radiance branches (and only
there), and that reassigned value is what the later `corr` BSDF branch
sees. -/
def canoResolve : MaterialChannels → Option (List ℚ) → List ℚ → Option (List ℚ)
  | .combined _ _, cp, gb_pos => some (cp.getD gb_pos)
  | .radiance _ _, cp, gb_pos => some (cp.getD gb_pos)
  | .classic _ _ _ _ _, cp, _ => cp

/-- The pixel shader `shade` (lines 30-187), per pixel.  `rnd_seed` is the
process-wide counter passed in and returned (state-passing form of the
`global rnd_seed`).  The per-pixel random jitter taps are inputs (fields of
`ex` / `MaterialChannels`); lines 107-110 compute `perturbed_nrm_grad`,
which is never returned, so its value does not appear in the result. -/
def shade (ex : Externals) (material : Material) (bsdf : Option String)
    (lgt : Light) (optix_ctx denoiser : Bool)
    (gb_pos gb_normal gb_tangent gb_depth : List ℚ)
    (cano_pos : Option (List ℚ)) (msk : Bool) (rnd_seed : ℕ) :
    Except String (List (String × List ℚ) × ℕ) :=
  let mask : ℚ := if msk then 1 else 0
  let grad_weight := mask * ex.mask_tap
  let cano_pos := canoResolve material.channels cano_pos gb_pos
  match texture_lookups material.channels with
  | .error e => .error e
  | .ok t =>
    let alpha := albedoAlpha t.kd
    let kd := t.kd.take 3
    let perturbed_nrm := if material.no_perturbed_nrm then none else t.perturbed_nrm
    let nrm_grad := (absDiff ex.nrm_jitter gb_normal).map (· * grad_weight)
    let gb_normal := ex.prepare_shading_normal perturbed_nrm
    match resolveBsdf material bsdf with
    | none => .error "Material must specify a BSDF type"
    | some tag =>
      match shadeDispatch ex tag lgt optix_ctx denoiser kd t.ks gb_normal
              gb_tangent gb_depth cano_pos rnd_seed with
      | .error e => .error e
      | .ok out =>
        .ok (mkBuffers out.1 t.kd_grad t.ks_grad nrm_grad t.ks gb_pos gb_normal
               alpha out.2.1, out.2.2)

/-- A resolved BSDF tag that is invalid for the given light configuration:
(e) unknown tag, or (f) `pbr`/`diffuse` with a light that is not the
analytic environment light, or an `-optix` tag with a light that is not the
OptiX environment light or with no ray-tracing context. -/
def tagLightInvalid (tag : String) (lgt : Light) (optix_ctx : Bool) : Bool :=
  decide (¬ tag ∈ knownTags
    ∨ ((tag = "pbr" ∨ tag = "diffuse") ∧ lgt ≠ Light.env)
    ∨ ((tag = "pbr-optix" ∨ tag = "diffuse-optix" ∨ tag = "white-optix")
        ∧ ¬(lgt = Light.envOptix ∧ optix_ctx = true)))

/-- The invalid configurations (d), (e), (f) of the spec's §7, as a Boolean
predicate on the configuration: missing BSDF on both material and override;
unknown tag; tag/light-variant mismatch. -/
def invalidConfig (material : Material) (bsdf : Option String) (lgt : Light)
    (optix_ctx : Bool) : Bool :=
  match resolveBsdf material bsdf with
  | none => true
  | some tag => tagLightInvalid tag lgt optix_ctx

/-- Whether the material's sampler outputs satisfy the channel-count
assertion of line 67 (trivially true outside the combined branch). -/
def wellFormedChannels : MaterialChannels → Prop
  | .combined tex _ => tex.length = 9 ∨ tex.length = 10
  | _ => True

instance : DecidablePred wellFormedChannels := by
  intro mc; unfold wellFormedChannels; cases mc <;> infer_instance

/-- The material branches that compute a masked specular gradient (combined
and classic; the radiance branch zeroes it), with the well-formedness needed
for the first gradient channel to exist. -/
def branchHasKsGrad : MaterialChannels → Bool
  | .combined tex texJ =>
    decide ((tex.length = 9 ∨ tex.length = 10) ∧ texJ.length = tex.length)
  | .radiance _ _ => false
  | .classic _ _ ksS ksJ _ => decide (ksS ≠ [] ∧ ksJ ≠ [])

/-- `Except` result is an error. -/
def isErr : Except String α → Bool
  | .error _ => true
  | .ok _ => false

instance {ε α : Type} [DecidableEq ε] [DecidableEq α] : DecidableEq (Except ε α) :=
  fun a b =>
    match a, b with
    | .error e, .error f =>
      if h : e = f then isTrue (by rw [h]) else isFalse (fun hc => h (Except.error.inj hc))
    | .ok x, .ok y =>
      if h : x = y then isTrue (by rw [h]) else isFalse (fun hc => h (Except.ok.inj hc))
    | .error _, .ok _ => isFalse (fun hc => Except.noConfusion hc)
    | .ok _, .error _ => isFalse (fun hc => Except.noConfusion hc)

/-- `torch.lerp(a, b, w) = a + w * (b - a)`. -/
def lerp (a b w : ℚ) : ℚ := a + w * (b - a)

/-- `buffers[key]` lookup in a layer's buffer mapping. -/
def lookupBuf : List (String × List ℚ) → String → List ℚ
  | [], _ => []
  | kv :: rest, key => if kv.1 = key then kv.2 else lookupBuf rest key

/-- A depth-peeled layer, per pixel: the shading-buffer mapping returned by
`render_layer` paired with the rasterization buffer's last channel
(coverage); `dr.antialias` is the abstract `aa`, a function of the layer's
rasterization value and the blended pixel. -/
def composite_buffer (aa : ℚ → List ℚ → List ℚ) (key : String)
    (layers : List (List (String × List ℚ) × ℚ)) (background : List ℚ)
    (antialias : Bool) : List ℚ :=
  (layers.reverse).foldl
    (fun accum layer =>
      let buf := lookupBuf layer.1 key
      let alpha := (if 0 < layer.2 then (1 : ℚ) else 0) * buf.getLastD 0
      let blended := List.zipWith (fun a c => lerp a c alpha) accum (buf.dropLast ++ [1])
      if antialias then aa layer.2 blended else blended)
    background

/-- `render_mesh` lines 341-347: the prepared background, per pixel.  A
supplied background gets a fully-transparent alpha channel appended (the
`spp>1` upsampling is spatial and per-pixel the identity); otherwise a
4-channel transparent black. -/
def prepare_background : Option (List ℚ) → List ℚ
  | some bg => bg ++ [0]
  | none => [0, 0, 0, 0]

/-- `render_mesh` lines 350-358: per-buffer compositing.  The key set comes
from `layers[0][0].keys()` (an unguarded `layers[0]` access: empty layer
list raises `IndexError`); `shaded` is composited over the prepared
background with antialiasing, every other key over
`torch.zeros_like(layers[0][0][key])` without.  (The final `avg_pool`
downsample is spatial and omitted from the per-pixel model.) -/
def render_mesh_composite (aa : ℚ → List ℚ → List ℚ)
    (layers : List (List (String × List ℚ) × ℚ)) (background : Option (List ℚ)) :
    Except String (List (String × List ℚ)) :=
  match layers with
  | [] => .error "IndexError: list index out of range"
  | l0 :: rest =>
    .ok ((l0.1).map (fun kv =>
      (kv.1,
       if kv.1 = "shaded" then
         composite_buffer aa kv.1 (l0 :: rest) (prepare_background background) true
       else
         composite_buffer aa kv.1 (l0 :: rest)
           ((lookupBuf l0.1 kv.1).map (fun _ => (0 : ℚ))) false)))

/-- `render_mesh` lines 322-360: the entry assertion
`assert mesh.t_pos_idx.shape[0] > 0` followed by the peeling loop (layer `i`
produced by the abstract peeler/`render_layer` as `layerAt i`) and the
compositing stage.  `t_pos_idx` is the batched triangle-index array, one
triangle list per batch entry, so `shape[0]` is the outer length.  (The
background-resolution assertion of line 323 is spatial and outside the
per-pixel model.) -/
def render_mesh_run (aa : ℚ → List ℚ → List ℚ)
    (t_pos_idx : List (List (ℕ × ℕ × ℕ)))
    (layerAt : ℕ → List (String × List ℚ) × ℚ) (num_layers : ℕ)
    (background : Option (List ℚ)) : Except String (List (String × List ℚ)) :=
  if 0 < t_pos_idx.length then
    render_mesh_composite aa ((List.range num_layers).map layerAt) background
  else
    .error "Got empty training triangle mesh (unrecoverable discontinuity)"

/-- Number of triangles of the batched index array (its `shape[1]`). -/
def num_triangles (t_pos_idx : List (List (ℕ × ℕ × ℕ))) : ℕ :=
  (t_pos_idx.headD []).length

/-- `render_uv` line 371: `uv_clip = mesh.v_tex * 2.0 - 1.0`, per vertex. -/
def uv_clip (v_tex : List ℚ) : List ℚ := v_tex.map (fun t => t * 2 - 1)

/-- `render_uv` line 374: pad with `zeros_like(uv_clip[..., 0:1])` and
`ones_like(uv_clip[..., 0:1])` to a homogeneous 4-vector. -/
def uv_clip4 (v_tex : List ℚ) : List ℚ :=
  uv_clip v_tex ++ ((uv_clip v_tex).take 1).map (fun _ => (0 : ℚ))
              ++ ((uv_clip v_tex).take 1).map (fun _ => (1 : ℚ))

/-- Spec-side definition (§4.4's words): one back-to-front blending step —
`alpha` = (pixel covered by this layer) × (this buffer's own alpha channel);
linearly interpolate from the running accumulator toward this layer's color
with its alpha replaced by 1, by that factor, in the convex-combination form
`(1-alpha)*accum + alpha*color`. -/
def spec_blend (accum : List ℚ) (covered : Bool) (buf : List ℚ) : List ℚ :=
  let a := (if covered then (1 : ℚ) else 0) * buf.getLastD 0
  List.zipWith (fun x c => (1 - a) * x + a * c) accum (buf.dropLast ++ [1])

/-- Spec-side definition (claim C5's words): compositing where EVERY named
buffer starts from the prepared background (antialiasing still only for
`shaded`). -/
def render_mesh_composite_claimC5 (aa : ℚ → List ℚ → List ℚ)
    (layers : List (List (String × List ℚ) × ℚ)) (background : Option (List ℚ)) :
    Except String (List (String × List ℚ)) :=
  match layers with
  | [] => .error "IndexError: list index out of range"
  | l0 :: rest =>
    .ok ((l0.1).map (fun kv =>
      (kv.1, composite_buffer aa kv.1 (l0 :: rest) (prepare_background background)
               (kv.1 = "shaded"))))

/-- One call's worth of `shade` arguments (everything but the seed), for
stating facts about sequences of calls against the process-wide counter. -/
structure ShadeCall where
  ex : Externals
  material : Material
  bsdf : Option String
  lgt : Light
  optix_ctx : Bool
  denoiser : Bool
  gb_pos : List ℚ
  gb_normal : List ℚ
  gb_tangent : List ℚ
  gb_depth : List ℚ
  cano_pos : Option (List ℚ)
  msk : Bool

/-- The seed counter after one `shade` invocation (unchanged if the call
raises, since the increment sits after the integrator call). -/
def seedStep (c : ShadeCall) (seed : ℕ) : ℕ :=
  match shade c.ex c.material c.bsdf c.lgt c.optix_ctx c.denoiser c.gb_pos
          c.gb_normal c.gb_tangent c.gb_depth c.cano_pos c.msk seed with
  | .ok out => out.2
  | .error _ => seed

/-- The seed counter after a sequence of `shade` invocations. -/
def seedRun (calls : List ShadeCall) (seed : ℕ) : ℕ :=
  calls.foldl (fun s c => seedStep c s) seed

/-! Concrete fixtures used by counterexamples and witnesses. -/

/-- Concrete external collaborators for evaluation. -/
def exW : Externals where
  mask_tap := 1/2
  nrm_jitter := [0, 1, 0]
  prepare_shading_normal := fun _ => [0, 0, 1]
  optixShade := fun _ => ([1, 1/2, 1/4], [0, 0, 0])
  analyticShade := fun _ => [1, 1, 1]
  denoise := fun _ => [0, 0, 0]

/-- A 9-channel combined material with the classic `kd` visualization BSDF. -/
def mW9 : Material where
  channels := .combined [5, 4, 3, 2, 1, 0, 1, 2, 3] [1, 1, 7, 1, 1, 1, 1, 1, 1]
  bsdf := some "kd"
  no_perturbed_nrm := false

/-- A 10-channel combined material with no `'bsdf'` key. -/
def mW10 : Material where
  channels := .combined [0, 0, 0, 0, 0, 0, 0, 0, 0, 0] [0, 0, 0, 0, 0, 0, 0, 0, 0, 0]
  bsdf := none
  no_perturbed_nrm := true

/-- A 9-channel combined material with the `white-optix` BSDF. -/
def mWopt : Material where
  channels := .combined [5, 4, 3, 2, 1, 0, 1, 2, 3] [1, 1, 7, 1, 1, 1, 1, 1, 1]
  bsdf := some "white-optix"
  no_perturbed_nrm := true

/-- Identity stand-in for `dr.antialias` in concrete compositing runs. -/
def aaId : ℚ → List ℚ → List ℚ := fun _ x => x

/-- The buffers of a successful `shade` result (empty on error). -/
def okBufs (e : Except String (List (String × List ℚ) × ℕ)) :
    List (String × List ℚ) :=
  (e.toOption.map Prod.fst).getD []

/-- The buffers of a successful `render_mesh` result (empty on error). -/
def okOut (e : Except String (List (String × List ℚ))) :
    List (String × List ℚ) :=
  e.toOption.getD []

/-- Concrete `shade` run for the C1 counterexample: 10-channel combined
material, `kd` BSDF override. -/
def shadeC1run : Except String (List (String × List ℚ) × ℕ) :=
  shade exW mW10 (some "kd") Light.env false false
    [1, 2, 3] [0, 1, 0] [1, 0, 0] [1/2, 0] none true 0

/-- Concrete `shade` run for the C1/C7 witnesses: 9-channel combined
material, its own `kd` BSDF. -/
def shadeC7run : Except String (List (String × List ℚ) × ℕ) :=
  shade exW mW9 none Light.env false false
    [1, 2, 3] [0, 1, 0] [1, 0, 0] [1/2, 0] none true 0

/-- Concrete `shade` run for the C8 witness: `white-optix` at seed 5. -/
def shadeC8run : Except String (List (String × List ℚ) × ℕ) :=
  shade exW mWopt none Light.envOptix true false
    [1, 2, 3] [0, 1, 0] [1, 0, 0] [1/2, 0] none true 5

/-- Single concrete layer whose pixel is NOT covered (rasterization coverage
channel 0), used by the C5 counterexample. -/
def layersW5 : List (List (String × List ℚ) × ℚ) :=
  [([("shaded", [1, 1, 1, 1]), ("kd_grad", [2, 2, 2, 1])], 0)]

/-- Single concrete covered layer for the C4/C10 witnesses. -/
def layerW : List (String × List ℚ) × ℚ :=
  ([("shaded", [1, 0, 0, 1]), ("kd_grad", [3, 3, 3, 1])], 1)

/-! Helper lemmas. -/

theorem zipWith_ext {f g : ℚ → ℚ → ℚ} (h : ∀ a b, f a b = g a b) :
    ∀ l1 l2 : List ℚ, List.zipWith f l1 l2 = List.zipWith g l1 l2 := by
  intro l1
  induction l1 with
  | nil => intro l2; rfl
  | cons a t ih =>
    intro l2
    cases l2 with
    | nil => rfl
    | cons b t2 => simp [h, ih]

/-- The code's compositing loop in the spec's shape: a back-to-front
`foldr`, each step a convex-combination blend, antialiasing (when enabled)
after each blend. -/
theorem composite_buffer_eq_spec (aa : ℚ → List ℚ → List ℚ) (key : String)
    (layers : List (List (String × List ℚ) × ℚ)) (bg : List ℚ) (anti : Bool) :
    composite_buffer aa key layers bg anti =
      List.foldr (fun l acc => (if anti then aa l.2 else id)
          (spec_blend acc (decide (0 < l.2)) (lookupBuf l.1 key))) bg layers := by
  unfold composite_buffer
  rw [List.foldl_reverse]
  congr 1
  funext layer acc
  show (let buf := lookupBuf layer.1 key
        let alpha := (if 0 < layer.2 then (1 : ℚ) else 0) * buf.getLastD 0
        let blended := List.zipWith (fun a c => lerp a c alpha) acc (buf.dropLast ++ [1])
        if anti then aa layer.2 blended else blended) =
      (if anti then aa layer.2 else id)
        (spec_blend acc (decide (0 < layer.2)) (lookupBuf layer.1 key))
  have hblend : ∀ (α : ℚ) (l1 l2 : List ℚ),
      List.zipWith (fun a c => lerp a c α) l1 l2 =
        List.zipWith (fun x c => (1 - α) * x + α * c) l1 l2 := by
    intro α
    exact zipWith_ext (fun a b => by unfold lerp; ring)
  simp only [spec_blend, decide_eq_true_eq]
  rw [hblend]
  cases anti <;> rfl

/-- The BSDF dispatch raises exactly on the invalid tag/light combinations,
provided a canonical position is available for the `corr` branch. -/
theorem shadeDispatch_isErr (ex : Externals) (tag : String) (lgt : Light)
    (optix_ctx denoiser : Bool) (kd ks nrm tangent depth c : List ℚ) (seed : ℕ) :
    isErr (shadeDispatch ex tag lgt optix_ctx denoiser kd ks nrm tangent depth (some c) seed)
      = tagLightInvalid tag lgt optix_ctx := by
  by_cases t1 : tag = "pbr-optix"
  · subst t1; cases lgt <;> cases optix_ctx <;>
      simp +decide [shadeDispatch, isErr, tagLightInvalid, knownTags]
  by_cases t2 : tag = "diffuse-optix"
  · subst t2; cases lgt <;> cases optix_ctx <;>
      simp +decide [shadeDispatch, isErr, tagLightInvalid, knownTags]
  by_cases t3 : tag = "white-optix"
  · subst t3; cases lgt <;> cases optix_ctx <;>
      simp +decide [shadeDispatch, isErr, tagLightInvalid, knownTags]
  by_cases t4 : tag = "pbr"
  · subst t4; cases lgt <;> cases optix_ctx <;>
      simp +decide [shadeDispatch, isErr, tagLightInvalid, knownTags]
  by_cases t5 : tag = "diffuse"
  · subst t5; cases lgt <;> cases optix_ctx <;>
      simp +decide [shadeDispatch, isErr, tagLightInvalid, knownTags]
  by_cases t6 : tag = "radiance"
  · subst t6; cases lgt <;> cases optix_ctx <;>
      simp +decide [shadeDispatch, isErr, tagLightInvalid, knownTags]
  by_cases t7 : tag = "normal"
  · subst t7; cases lgt <;> cases optix_ctx <;>
      simp +decide [shadeDispatch, isErr, tagLightInvalid, knownTags]
  by_cases t8 : tag = "tangent"
  · subst t8; cases lgt <;> cases optix_ctx <;>
      simp +decide [shadeDispatch, isErr, tagLightInvalid, knownTags]
  by_cases t9 : tag = "corr"
  · subst t9; cases lgt <;> cases optix_ctx <;>
      simp +decide [shadeDispatch, isErr, tagLightInvalid, knownTags]
  by_cases t10 : tag = "kd"
  · subst t10; cases lgt <;> cases optix_ctx <;>
      simp +decide [shadeDispatch, isErr, tagLightInvalid, knownTags]
  by_cases t11 : tag = "ks"
  · subst t11; cases lgt <;> cases optix_ctx <;>
      simp +decide [shadeDispatch, isErr, tagLightInvalid, knownTags]
  · simp [shadeDispatch, isErr, tagLightInvalid, knownTags,
      t1, t2, t3, t4, t5, t6, t7, t8, t9, t10, t11]

/-- A well-formed material's texture-lookup stage never raises. -/
theorem texture_lookups_total (mc : MaterialChannels) (hwf : wellFormedChannels mc) :
    ∃ t, texture_lookups mc = .ok t := by
  cases mc with
  | combined tex texJ =>
    replace hwf : tex.length = 9 ∨ tex.length = 10 := hwf
    exact ⟨_, by simp only [texture_lookups]; rw [if_pos hwf]⟩
  | radiance tex texJ => exact ⟨_, rfl⟩
  | classic a b c d e => exact ⟨_, rfl⟩

/-- When a canonical position is supplied, its resolved value is present in
every material branch. -/
theorem canoResolve_some (mc : MaterialChannels) (cp : Option (List ℚ)) (gb_pos : List ℚ)
    (hcp : cp.isSome = true) : ∃ c, canoResolve mc cp gb_pos = some c := by
  cases mc <;> cases cp <;> simp_all [canoResolve]

/-- Inversion of a successful `shade` run into its stages. -/
theorem shade_ok_elim (ex : Externals) (material : Material) (bsdf : Option String)
    (lgt : Light) (optix_ctx denoiser : Bool)
    (gb_pos gb_normal gb_tangent gb_depth : List ℚ)
    (cano_pos : Option (List ℚ)) (msk : Bool) (rnd_seed : ℕ)
    (bufs : List (String × List ℚ)) (s2 : ℕ)
    (h : shade ex material bsdf lgt optix_ctx denoiser gb_pos gb_normal gb_tangent
        gb_depth cano_pos msk rnd_seed = .ok (bufs, s2)) :
    ∃ t tag out,
      texture_lookups material.channels = .ok t ∧
      resolveBsdf material bsdf = some tag ∧
      shadeDispatch ex tag lgt optix_ctx denoiser (t.kd.take 3) t.ks
        (ex.prepare_shading_normal
          (if material.no_perturbed_nrm then none else t.perturbed_nrm))
        gb_tangent gb_depth (canoResolve material.channels cano_pos gb_pos) rnd_seed
        = .ok out ∧
      bufs = mkBuffers out.1 t.kd_grad t.ks_grad
        ((absDiff ex.nrm_jitter gb_normal).map
          (· * ((if msk then (1:ℚ) else 0) * ex.mask_tap)))
        t.ks gb_pos
        (ex.prepare_shading_normal
          (if material.no_perturbed_nrm then none else t.perturbed_nrm))
        (albedoAlpha t.kd) out.2.1 ∧
      s2 = out.2.2 := by
  unfold shade at h
  dsimp only at h
  split at h
  · exact absurd h (by simp)
  next t ht =>
    split at h
    · exact absurd h (by simp)
    next tag htag =>
      split at h
      · exact absurd h (by simp)
      next out hout =>
        rw [Except.ok.injEq, Prod.mk.injEq] at h
        exact ⟨t, tag, out, ht, htag, hout, h.1.symm, h.2.symm⟩

/-- A successful dispatch bumps the seed exactly on the `-optix` tags. -/
theorem shadeDispatch_ok_seed (ex : Externals) (tag : String) (lgt : Light)
    (optix_ctx denoiser : Bool) (kd ks nrm tangent depth : List ℚ)
    (cp : Option (List ℚ)) (seed : ℕ)
    (out : List ℚ × Option (List ℚ × List ℚ) × ℕ)
    (h : shadeDispatch ex tag lgt optix_ctx denoiser kd ks nrm tangent depth cp seed = .ok out) :
    out.2.2 = if isOptixTag tag then seed + 1 else seed := by
  unfold shadeDispatch at h
  split_ifs at h with h1 h2 h3 h4 h5 h6 h7 h8 h9 h10 h11 h12
  all_goals try split at h
  all_goals first
    | (replace h := Except.ok.inj h
       subst h
       dsimp only
       first
         | (rcases h1 with hh | hh | hh <;> subst hh <;> simp [isOptixTag])
         | (simp only [isOptixTag, Bool.or_eq_true, beq_iff_eq]
            rw [if_neg (by tauto)]))
    | simp at h

/-- A successful `shade` run bumps the seed exactly when the resolved tag is
an `-optix` tag. -/
theorem shade_ok_seed (ex : Externals) (material : Material) (bsdf : Option String)
    (lgt : Light) (optix_ctx denoiser : Bool)
    (gb_pos gb_normal gb_tangent gb_depth : List ℚ)
    (cano_pos : Option (List ℚ)) (msk : Bool) (seed : ℕ)
    (bufs : List (String × List ℚ)) (s2 : ℕ)
    (h : shade ex material bsdf lgt optix_ctx denoiser gb_pos gb_normal gb_tangent
        gb_depth cano_pos msk seed = .ok (bufs, s2)) :
    s2 = if isOptixTag ((resolveBsdf material bsdf).getD "") then seed + 1 else seed := by
  obtain ⟨t, tag, out, ht, htag, hd, hbufs, hs⟩ :=
    shade_ok_elim ex material bsdf lgt optix_ctx denoiser gb_pos gb_normal gb_tangent
      gb_depth cano_pos msk seed bufs s2 h
  rw [hs, htag]
  exact shadeDispatch_ok_seed _ _ _ _ _ _ _ _ _ _ _ _ _ hd

/-- One invocation never decreases the counter. -/
theorem seedStep_le (c : ShadeCall) (s : ℕ) : s ≤ seedStep c s := by
  unfold seedStep
  split
  next out hout =>
    have hseed := shade_ok_seed c.ex c.material c.bsdf c.lgt c.optix_ctx c.denoiser
      c.gb_pos c.gb_normal c.gb_tangent c.gb_depth c.cano_pos c.msk s out.1 out.2 hout
    rw [hseed]
    split <;> omega
  next => exact Nat.le_refl s

/-- The counter is monotonically non-decreasing across call sequences. -/
theorem seedRun_le (calls : List ShadeCall) (s : ℕ) : s ≤ seedRun calls s := by
  induction calls generalizing s with
  | nil => exact Nat.le_refl s
  | cons c cs ih =>
    calc s ≤ seedStep c s := seedStep_le c s
    _ ≤ seedRun cs (seedStep c s) := ih _
    _ = seedRun (c :: cs) s := rfl

/-- `shade` consults the Monte Carlo integrator only at the seed it was
invoked with (the increment happens after the call). -/
theorem shade_ext_congr (ex ex' : Externals) (material : Material) (bsdf : Option String)
    (lgt : Light) (optix_ctx denoiser : Bool)
    (gb_pos gb_normal gb_tangent gb_depth : List ℚ)
    (cano_pos : Option (List ℚ)) (msk : Bool) (seed : ℕ)
    (h1 : ex'.mask_tap = ex.mask_tap) (h2 : ex'.nrm_jitter = ex.nrm_jitter)
    (h3 : ex'.prepare_shading_normal = ex.prepare_shading_normal)
    (h4 : ex'.analyticShade = ex.analyticShade) (h5 : ex'.denoise = ex.denoise)
    (h6 : ex'.optixShade seed = ex.optixShade seed) :
    shade ex' material bsdf lgt optix_ctx denoiser gb_pos gb_normal gb_tangent
        gb_depth cano_pos msk seed =
      shade ex material bsdf lgt optix_ctx denoiser gb_pos gb_normal gb_tangent
        gb_depth cano_pos msk seed := by
  obtain ⟨m1, n1, p1, o1, a1, d1⟩ := ex'
  obtain ⟨m2, n2, p2, o2, a2, d2⟩ := ex
  dsimp only at h1 h2 h3 h4 h5 h6
  subst h1 h2 h3 h4 h5
  unfold shade shadeDispatch
  dsimp only
  simp only [h6]

/-- The head of a specular difference masked by `[0,1,1]` is zero. -/
theorem zipWith_mask_head (l1 l2 : List ℚ) (h1 : l1 ≠ []) (h2 : l2 ≠ []) :
    (List.zipWith (· * ·) (absDiff l1 l2) mask001).head? = some 0 := by
  cases l1 with
  | nil => exact absurd rfl h1
  | cons a t1 =>
    cases l2 with
    | nil => exact absurd rfl h2
    | cons b t2 => simp [absDiff, mask001]

theorem head?_append_some {l l' : List ℚ} {a : ℚ} (h : l.head? = some a) :
    (l ++ l').head? = some a := by
  cases l with
  | nil => simp at h
  | cons x t => simpa using h

theorem lookupBuf_mkBuffers_ks_grad (sc kg ksg ng ks gp gn alpha : List ℚ)
    (ob : Option (List ℚ × List ℚ)) :
    lookupBuf (mkBuffers sc kg ksg ng ks gp gn alpha ob) "ks_grad" = ksg ++ alpha := by
  rcases ob with _ | ⟨d, s⟩ <;> simp [mkBuffers, lookupBuf]


set_option maxHeartbeats 1000000 in
/-- Channel counts of a successful dispatch, for 3-channel inputs and
well-behaved externals: the shaded color has 3 channels, and the OptiX
accumulation buffers, when present, have 3 channels each. -/
theorem shadeDispatch_ok_shape (ex : Externals) (tag : String) (lgt : Light)
    (optix_ctx denoiser : Bool) (kd ks nrm tangent depth : List ℚ)
    (cp : Option (List ℚ)) (seed : ℕ)
    (out : List ℚ × Option (List ℚ × List ℚ) × ℕ)
    (hkd : kd.length = 3) (hks : ks.length = 3) (hnrm : nrm.length = 3)
    (htg : tangent.length = 3)
    (hcp : ∀ c, cp = some c → c.length = 3)
    (hopt : ∀ s, (ex.optixShade s).1.length = 3 ∧ (ex.optixShade s).2.length = 3)
    (hana : ∀ b, (ex.analyticShade b).length = 3)
    (hden : ∀ x, (ex.denoise x).length = 3)
    (h : shadeDispatch ex tag lgt optix_ctx denoiser kd ks nrm tangent depth cp seed = .ok out) :
    out.1.length = 3 ∧ ∀ p, out.2.1 = some p → p.1.length = 3 ∧ p.2.length = 3 := by
  obtain ⟨ho1, ho2⟩ := hopt seed
  unfold shadeDispatch at h
  split_ifs at h with h1 h2 h3 h4 h5 h6 h7 h8 h9 h10 h11 h12
  all_goals try split at h
  all_goals first
    | (replace h := Except.ok.inj h
       subst h
       dsimp only
       constructor
       · first
           | (simp [List.length_zipWith, List.length_map, List.length_replicate,
                    hden, hana, hkd, hks, hnrm, htg, ho1, ho2]
              done)
           | (simp [List.length_map, List.length_zipWith, hcp _ rfl]
              done)
       · intro p hp
         first
           | (replace hp := Option.some.inj hp
              subst hp
              constructor <;> simp [hden, ho1, ho2])
           | simp at hp)
    | simp at h

/-- Line 94's alpha is always a single channel (given a nonempty albedo). -/
theorem albedoAlpha_singleton (kdFull : List ℚ) (h : 0 < kdFull.length) :
    ∃ a, albedoAlpha kdFull = [a] := by
  unfold albedoAlpha
  split_ifs with h4
  · have hl : ((kdFull.drop 3).take 1).length = 1 := by
      simp [List.length_take, List.length_drop, h4]
    exact List.length_eq_one.mp hl
  · have hl : ((kdFull.take 1).map (fun _ => (1 : ℚ))).length = 1 := by
      simp [List.length_take]
      omega
    exact List.length_eq_one.mp hl

/-- Per-buffer alpha and channel count of the returned mapping. -/
theorem mkBuffers_shape (sc kg ksg ng ks gp gn : List ℚ) (a : ℚ)
    (ob : Option (List ℚ × List ℚ))
    (hsc : sc.length = 3) (hksg : ksg.length = 3) (hng : ng.length = 3)
    (hks : 0 < ks.length) (hgp : gp.length = 3) (hgn : gn.length = 3)
    (hob : ∀ p, ob = some p → p.1.length = 3 ∧ p.2.length = 3) :
    ∀ kv ∈ mkBuffers sc kg ksg ng ks gp gn [a] ob,
      kv.2.getLast? = some a ∧
      kv.2.length = (if kv.1 = "occlusion" then 2
                     else if kv.1 = "kd_grad" then kg.length + 1 else 4) := by
  intro kv hkv
  rcases ob with _ | ⟨d, s⟩
  · simp only [mkBuffers, List.append_nil, List.mem_cons, List.not_mem_nil, or_false] at hkv
    rcases hkv with rfl | rfl | rfl | rfl | rfl | rfl | rfl <;>
      refine ⟨by simp, ?_⟩ <;>
      simp [List.length_append, List.length_take, hsc, hksg, hng, hgp, hgn] <;>
      omega
  · obtain ⟨hd3, hs3⟩ := hob (d, s) rfl
    simp only [mkBuffers, List.mem_append, List.mem_cons, List.not_mem_nil, or_false] at hkv
    rcases hkv with (rfl | rfl | rfl | rfl | rfl | rfl | rfl) | (rfl | rfl) <;>
      refine ⟨by simp, ?_⟩ <;>
      simp [List.length_append, List.length_take, hsc, hksg, hng, hgp, hgn, hd3, hs3] <;>
      omega

/-! Claim theorems. -/

/-- C9: in `render_uv` texcoords are mapped to clip space by `uv*2 - 1` and
padded with components `(0, 1)` to a homogeneous 4-vector; a texcoord of
exactly `(0.5, 0.5)` lands on the clip-space origin `(0, 0)` before
padding. -/
theorem uv_center_maps_to_clip_origin :
    (∀ u v : ℚ, uv_clip4 [u, v] = [u * 2 - 1, v * 2 - 1, 0, 1]) ∧
    uv_clip [1/2, 1/2] = [0, 0] := by
  constructor
  · intro u v
    simp [uv_clip4, uv_clip]
  · norm_num [uv_clip]

/-- C6: layer compositing is associative front-to-back — compositing the
three layers `[A, B, C]` back-to-front over a background equals first
compositing `C` over the background and then compositing `[A, B]`
back-to-front over that intermediate result, for any antialias setting. -/
theorem composite_assoc_front_to_back (aa : ℚ → List ℚ → List ℚ) (key : String)
    (A B C : List (String × List ℚ) × ℚ) (bg : List ℚ) (anti : Bool) :
    composite_buffer aa key [A, B, C] bg anti =
      composite_buffer aa key [A, B] (composite_buffer aa key [C] bg anti) anti := rfl

/-- C2 (code bug): `render_mesh`'s entry assertion
`assert mesh.t_pos_idx.shape[0] > 0` tests the BATCH dimension of the
batched triangle-index array, so a mesh with zero triangles (shape
`(1, 0, 3)`, modelled as `[[]]`) passes the assertion and rendering
proceeds instead of failing with the "empty training triangle mesh"
error. -/
theorem empty_triangle_mesh_passes_entry_assert :
    num_triangles [[]] = 0 ∧
    render_mesh_run aaId [[]] (fun _ => layerW) 1 none =
      .ok [("shaded", [1, 0, 0, 1]), ("kd_grad", [3, 3, 3, 1])] := by
  constructor
  · rfl
  · norm_num +decide [render_mesh_run, render_mesh_composite, composite_buffer,
      lookupBuf, prepare_background, lerp, aaId, layerW]

/-- C5 (counterexample): with a supplied background `[5,5,5]` and a single
uncovered layer, the code composites the `kd_grad` buffer starting from
all-zeros, yielding `[0,0,0,0]`, while the claim ("every named buffer starts
from the prepared background") demands `[5,5,5,0]`. -/
theorem aux_buffers_ignore_background :
    render_mesh_composite aaId layersW5 (some [5, 5, 5]) =
      .ok [("shaded", [5, 5, 5, 0]), ("kd_grad", [0, 0, 0, 0])] ∧
    render_mesh_composite_claimC5 aaId layersW5 (some [5, 5, 5]) =
      .ok [("shaded", [5, 5, 5, 0]), ("kd_grad", [5, 5, 5, 0])] ∧
    ([0, 0, 0, 0] : List ℚ) ≠ [5, 5, 5, 0] := by
  refine ⟨?_, ?_, by norm_num⟩
  · norm_num +decide [render_mesh_composite, composite_buffer, lookupBuf,
      prepare_background, lerp, aaId, layersW5]
  · norm_num +decide [render_mesh_composite_claimC5, composite_buffer, lookupBuf,
      prepare_background, lerp, aaId, layersW5]

/-- C5 (amended): compositing iterates the layer list in reverse of peel
order (back-to-front `foldr`); the `shaded` buffer starts from the prepared
background (supplied background with an added fully-transparent alpha, or
transparent black), while every other named buffer starts from an all-zero
buffer shaped like the first layer's value of that buffer. -/
theorem composite_reverse_order_and_starts (aa : ℚ → List ℚ → List ℚ)
    (l0 : List (String × List ℚ) × ℚ) (rest : List (List (String × List ℚ) × ℚ))
    (bg : Option (List ℚ)) :
    render_mesh_composite aa (l0 :: rest) bg =
      .ok ((l0.1).map (fun kv =>
        (kv.1,
         List.foldr (fun l acc => (if kv.1 = "shaded" then aa l.2 else id)
             (spec_blend acc (decide (0 < l.2)) (lookupBuf l.1 kv.1)))
           (if kv.1 = "shaded" then prepare_background bg
            else (lookupBuf l0.1 kv.1).map (fun _ => (0 : ℚ)))
           (l0 :: rest)))) := by
  have hfun : (fun kv : String × List ℚ =>
      (kv.1,
       if kv.1 = "shaded" then
         composite_buffer aa kv.1 (l0 :: rest) (prepare_background bg) true
       else
         composite_buffer aa kv.1 (l0 :: rest)
           ((lookupBuf l0.1 kv.1).map (fun _ => (0 : ℚ))) false)) =
      (fun kv : String × List ℚ =>
      (kv.1,
       List.foldr (fun l acc => (if kv.1 = "shaded" then aa l.2 else id)
           (spec_blend acc (decide (0 < l.2)) (lookupBuf l.1 kv.1)))
         (if kv.1 = "shaded" then prepare_background bg
          else (lookupBuf l0.1 kv.1).map (fun _ => (0 : ℚ)))
         (l0 :: rest))) := by
    funext kv
    by_cases hk : kv.1 = "shaded" <;> simp [hk, composite_buffer_eq_spec]
  exact congrArg (fun f => Except.ok ((l0.1).map f)) hfun

/-- C4: each per-layer composite step computes
`alpha = (coverage of rast's last channel > 0) * (buffer's own last
channel)` and lerps the accumulator toward the layer's color with its alpha
replaced by 1 by that factor, with the antialias filter applied after each
blend exactly when enabled; and `render_mesh` enables antialiasing for the
`shaded` buffer and for no other buffer. -/
theorem composite_step_lerp_and_antialias :
    (∀ (aa : ℚ → List ℚ → List ℚ) (key : String) layers bg anti,
      composite_buffer aa key layers bg anti =
        List.foldr (fun l acc => (if anti then aa l.2 else id)
            (spec_blend acc (decide (0 < l.2)) (lookupBuf l.1 key))) bg layers) ∧
    (∀ (aa : ℚ → List ℚ → List ℚ) l0 rest bg out,
      render_mesh_composite aa (l0 :: rest) bg = .ok out →
      ∀ key buf, (key, buf) ∈ out →
        buf = composite_buffer aa key (l0 :: rest)
          (if key = "shaded" then prepare_background bg
           else (lookupBuf l0.1 key).map (fun _ => (0 : ℚ)))
          (decide (key = "shaded"))) := by
  constructor
  · exact composite_buffer_eq_spec
  · intro aa l0 rest bg out hout key buf hmem
    simp only [render_mesh_composite, Except.ok.injEq] at hout
    subst hout
    obtain ⟨kv, hkv, heq⟩ := List.mem_map.mp hmem
    obtain ⟨hkey, hbuf⟩ := Prod.mk.injEq .. ▸ heq
    subst hkey
    subst hbuf
    by_cases hk : kv.1 = "shaded" <;> simp [hk]

/-- C10: `render_mesh` implicitly requires `num_layers ≥ 1`: with
`num_layers = 0` (and a mesh passing the entry assertion) the compositing
stage fails with an unguarded `IndexError` reading `layers[0]`; for any
`num_layers ≥ 1` the buffer-key set used for compositing is exactly the key
set of the first (front-most) layer. -/
theorem render_mesh_requires_one_layer (aa : ℚ → List ℚ → List ℚ)
    (layerAt : ℕ → List (String × List ℚ) × ℚ) (bg : Option (List ℚ))
    (num_layers : ℕ) :
    (num_layers = 0 → ∀ t_pos_idx, 0 < t_pos_idx.length →
      render_mesh_run aa t_pos_idx layerAt num_layers bg =
        .error "IndexError: list index out of range") ∧
    (1 ≤ num_layers → ∀ t_pos_idx, 0 < t_pos_idx.length →
      ∀ out, render_mesh_run aa t_pos_idx layerAt num_layers bg = .ok out →
        out.map Prod.fst = ((layerAt 0).1).map Prod.fst) := by
  constructor
  · intro h0 tpi htpi
    subst h0
    simp [render_mesh_run, htpi, render_mesh_composite]
  · intro h1 tpi htpi out hout
    obtain ⟨m, rfl⟩ : ∃ m, num_layers = m + 1 :=
      ⟨num_layers - 1, (Nat.succ_pred_eq_of_pos h1).symm⟩
    rw [render_mesh_run, if_pos htpi, List.range_succ_eq_map] at hout
    simp only [List.map_cons, render_mesh_composite, Except.ok.injEq] at hout
    subst hout
    simp [List.map_map, Function.comp]

/-- C4 witness: the theorem's render-mesh part applied to a single concrete
covered layer for the `shaded` key. -/
theorem composite_step_lerp_and_antialias_witness :
    ([1, 0, 0, 1] : List ℚ) = composite_buffer aaId "shaded" [layerW]
      (if ("shaded" : String) = "shaded" then prepare_background none
       else (lookupBuf layerW.1 "shaded").map (fun _ => (0 : ℚ)))
      (decide (("shaded" : String) = "shaded")) :=
  composite_step_lerp_and_antialias.2 aaId layerW [] none
    (okOut (render_mesh_composite aaId [layerW] none)) rfl "shaded" [1, 0, 0, 1]
    (by norm_num +decide [okOut, render_mesh_composite, composite_buffer, lookupBuf,
      prepare_background, lerp, aaId, layerW])

/-- C10 witness: with zero layers the run fails with the `IndexError`, and
with one layer the output keys equal the first layer's keys. -/
theorem render_mesh_requires_one_layer_witness :
    render_mesh_run aaId [[(0, 1, 2)]] (fun _ => layerW) 0 none =
      .error "IndexError: list index out of range" ∧
    (okOut (render_mesh_run aaId [[(0, 1, 2)]] (fun _ => layerW) 1 none)).map Prod.fst =
      (((fun _ : ℕ => layerW) 0).1).map Prod.fst :=
  ⟨(render_mesh_requires_one_layer aaId (fun _ => layerW) none 0).1 rfl
     [[(0, 1, 2)]] (by decide),
   (render_mesh_requires_one_layer aaId (fun _ => layerW) none 1).2 (by decide)
     [[(0, 1, 2)]] (by decide)
     (okOut (render_mesh_run aaId [[(0, 1, 2)]] (fun _ => layerW) 1 none)) rfl⟩

/-- C3: for a material whose sampler outputs satisfy the channel-count
assertion and with a canonical position supplied, `shade` aborts with a
fatal assertion if and only if the configuration is invalid: (d) no BSDF on
material or override, (e) unknown resolved tag, or (f) the tag requires an
incompatible light variant (`pbr`/`diffuse` without the analytic
environment light; an `-optix` tag without the OptiX environment light or
without a ray-tracing context); every valid combination returns the buffer
mapping without error. -/
theorem shade_error_iff_invalid_config (ex : Externals) (material : Material)
    (bsdf : Option String) (lgt : Light) (optix_ctx denoiser : Bool)
    (gb_pos gb_normal gb_tangent gb_depth : List ℚ)
    (cano_pos : Option (List ℚ)) (msk : Bool) (rnd_seed : ℕ)
    (hwf : wellFormedChannels material.channels)
    (hcp : cano_pos.isSome = true) :
    isErr (shade ex material bsdf lgt optix_ctx denoiser gb_pos gb_normal gb_tangent
        gb_depth cano_pos msk rnd_seed) =
      invalidConfig material bsdf lgt optix_ctx := by
  obtain ⟨t, ht⟩ := texture_lookups_total material.channels hwf
  obtain ⟨c, hc⟩ := canoResolve_some material.channels cano_pos gb_pos hcp
  unfold shade
  dsimp only
  simp only [ht, hc]
  unfold invalidConfig
  rcases hb : resolveBsdf material bsdf with _ | tag <;> simp only [hb]
  · rfl
  · rw [← shadeDispatch_isErr ex tag lgt optix_ctx denoiser (t.kd.take 3) t.ks
        (ex.prepare_shading_normal
          (if material.no_perturbed_nrm then none else t.perturbed_nrm))
        gb_tangent gb_depth c rnd_seed]
    rcases hd : shadeDispatch ex tag lgt optix_ctx denoiser (t.kd.take 3) t.ks
        (ex.prepare_shading_normal
          (if material.no_perturbed_nrm then none else t.perturbed_nrm))
        gb_tangent gb_depth (some c) rnd_seed with e | out <;> simp only [hd] <;> rfl

/-- C3 witness: a concrete well-formed, valid configuration (9-channel
combined material, `kd` tag, analytic light) on which the theorem applies
and reports no error. -/
theorem shade_error_iff_invalid_config_witness :
    wellFormedChannels mW9.channels ∧
    (some [(0:ℚ), 0, 0]).isSome = true ∧
    isErr (shade exW mW9 none Light.env false false [1, 2, 3] [0, 1, 0] [1, 0, 0]
        [1/2, 0] (some [0, 0, 0]) true 0) =
      invalidConfig mW9 none Light.env false :=
  ⟨Or.inl rfl, rfl,
    shade_error_iff_invalid_config exW mW9 none Light.env false false [1, 2, 3]
      [0, 1, 0] [1, 0, 0] [1/2, 0] (some [0, 0, 0]) true 0 (Or.inl rfl) rfl⟩

/-- C8: every successful `shade` invocation returns the counter incremented
by exactly one when the resolved BSDF tag is an `-optix` tag and unchanged
otherwise; the counter never decreases, it is monotonically non-decreasing
across any sequence of calls, and the result depends on the Monte Carlo
integrator only through its value at the pre-increment seed (the increment
happens after the integrator call). -/
theorem rnd_seed_increment_per_optix_call (ex : Externals) (material : Material)
    (bsdf : Option String) (lgt : Light) (optix_ctx denoiser : Bool)
    (gb_pos gb_normal gb_tangent gb_depth : List ℚ)
    (cano_pos : Option (List ℚ)) (msk : Bool) (seed : ℕ)
    (bufs : List (String × List ℚ)) (s2 : ℕ)
    (h : shade ex material bsdf lgt optix_ctx denoiser gb_pos gb_normal gb_tangent
        gb_depth cano_pos msk seed = .ok (bufs, s2)) :
    (s2 = if isOptixTag ((resolveBsdf material bsdf).getD "") then seed + 1 else seed) ∧
    seed ≤ s2 ∧
    (∀ calls s0, s0 ≤ seedRun calls s0) ∧
    (∀ ex' : Externals, ex'.mask_tap = ex.mask_tap → ex'.nrm_jitter = ex.nrm_jitter →
      ex'.prepare_shading_normal = ex.prepare_shading_normal →
      ex'.analyticShade = ex.analyticShade → ex'.denoise = ex.denoise →
      ex'.optixShade seed = ex.optixShade seed →
      shade ex' material bsdf lgt optix_ctx denoiser gb_pos gb_normal gb_tangent
        gb_depth cano_pos msk seed = .ok (bufs, s2)) := by
  have hseed := shade_ok_seed ex material bsdf lgt optix_ctx denoiser gb_pos gb_normal
    gb_tangent gb_depth cano_pos msk seed bufs s2 h
  refine ⟨hseed, ?_, seedRun_le, ?_⟩
  · rw [hseed]; split <;> omega
  · intro ex' h1 h2 h3 h4 h5 h6
    rw [shade_ext_congr ex ex' material bsdf lgt optix_ctx denoiser gb_pos gb_normal
      gb_tangent gb_depth cano_pos msk seed h1 h2 h3 h4 h5 h6]
    exact h

/-- Concrete successful `white-optix` run at seed 5 used by the C8 witness. -/
theorem rnd_seed_witness_h :
    shade exW mWopt none Light.envOptix true false [1, 2, 3] [0, 1, 0] [1, 0, 0]
      [1/2, 0] none true 5 = .ok (okBufs shadeC8run, 6) := rfl

/-- C8 witness: applying the theorem to a concrete `white-optix` call at
seed 5 shows the returned counter is 6 = 5 + 1. -/
theorem rnd_seed_increment_per_optix_call_witness :
    ((6 : ℕ) = if isOptixTag ((resolveBsdf mWopt none).getD "") then 5 + 1 else 5) ∧
    (5 : ℕ) ≤ 6 :=
  ⟨(rnd_seed_increment_per_optix_call exW mWopt none Light.envOptix true false
      [1, 2, 3] [0, 1, 0] [1, 0, 0] [1/2, 0] none true 5 (okBufs shadeC8run) 6
      rnd_seed_witness_h).1,
   (rnd_seed_increment_per_optix_call exW mWopt none Light.envOptix true false
      [1, 2, 3] [0, 1, 0] [1, 0, 0] [1/2, 0] none true 5 (okBufs shadeC8run) 6
      rnd_seed_witness_h).2.1⟩

/-- C7: in both the combined `kd_ks_normal` branch and the classic
`kd`/`ks` texture branch, the specular gradient is the absolute difference
of jittered and unjittered specular samples multiplied elementwise by the
mask `[0, 1, 1]`, so the first color channel of the returned `ks_grad`
buffer is exactly zero for every pixel. -/
theorem ks_grad_first_channel_zero (ex : Externals) (material : Material)
    (bsdf : Option String) (lgt : Light) (optix_ctx denoiser : Bool)
    (gb_pos gb_normal gb_tangent gb_depth : List ℚ)
    (cano_pos : Option (List ℚ)) (msk : Bool) (seed : ℕ)
    (bufs : List (String × List ℚ)) (s2 : ℕ)
    (hbr : branchHasKsGrad material.channels = true)
    (h : shade ex material bsdf lgt optix_ctx denoiser gb_pos gb_normal gb_tangent
        gb_depth cano_pos msk seed = .ok (bufs, s2)) :
    (lookupBuf bufs "ks_grad").head? = some 0 := by
  obtain ⟨t, tag, out, ht, htag, hd, hbufs, hs⟩ :=
    shade_ok_elim ex material bsdf lgt optix_ctx denoiser gb_pos gb_normal gb_tangent
      gb_depth cano_pos msk seed bufs s2 h
  subst hbufs
  rw [lookupBuf_mkBuffers_ks_grad]
  apply head?_append_some
  cases hmc : material.channels with
  | combined tex texJ =>
    rw [hmc] at ht hbr
    replace hbr := of_decide_eq_true hbr
    simp only [texture_lookups] at ht
    rw [if_pos hbr.1] at ht
    replace ht := Except.ok.inj ht
    subst ht
    dsimp only
    apply zipWith_mask_head
    · apply List.length_pos.mp
      simp only [List.length_take, List.length_drop]
      omega
    · apply List.length_pos.mp
      simp only [List.length_take, List.length_drop]
      rcases hbr.1 with h9 | h10 <;> omega
  | radiance tex texJ =>
    rw [hmc] at hbr
    simp [branchHasKsGrad] at hbr
  | classic kdS kdJ ksS ksJ nt =>
    rw [hmc] at ht hbr
    replace hbr := of_decide_eq_true hbr
    simp only [texture_lookups] at ht
    replace ht := Except.ok.inj ht
    subst ht
    dsimp only
    apply zipWith_mask_head
    · apply List.length_pos.mp
      have hpos : 0 < ksJ.length := List.length_pos.mpr hbr.2
      simp only [List.length_take]
      omega
    · apply List.length_pos.mp
      have hpos : 0 < ksS.length := List.length_pos.mpr hbr.1
      simp only [List.length_take]
      omega

/-- C7 witness: the concrete 9-channel combined run, whose `ks_grad` buffer
is `[0, 0, 1, 1]` — first channel zero. -/
theorem ks_grad_first_channel_zero_witness :
    (lookupBuf (okBufs shadeC7run) "ks_grad").head? = some 0 :=
  ks_grad_first_channel_zero exW mW9 none Light.env false false [1, 2, 3] [0, 1, 0]
    [1, 0, 0] [1/2, 0] none true 0 (okBufs shadeC7run) 0 (by decide) rfl

/-- C1 (amended): for a combined `kd_ks_normal` material with 9 or 10
channels and 3-channel geometric inputs, every returned buffer's last
channel equals the per-pixel alpha derived from the albedo sample (4th
albedo channel if present, else 1) that the compositor uses; every buffer
has exactly 4 channels EXCEPT `occlusion`, which has 2 (one specular channel
plus alpha), and, in the 10-channel case, `kd_grad`, which has 5 (four
albedo channels plus alpha; `tex.length - 6 + 1` in general). -/
theorem shade_buffer_shapes_amended (ex : Externals) (material : Material)
    (bsdf : Option String) (lgt : Light) (optix_ctx denoiser : Bool)
    (gb_pos gb_normal gb_tangent gb_depth : List ℚ)
    (cano_pos : Option (List ℚ)) (msk : Bool) (seed : ℕ)
    (tex texJ : List ℚ) (bufs : List (String × List ℚ)) (s2 : ℕ)
    (hch : material.channels = .combined tex texJ)
    (hn : tex.length = 9 ∨ tex.length = 10)
    (hj : texJ.length = tex.length)
    (hgp : gb_pos.length = 3) (hgn : gb_normal.length = 3) (htg : gb_tangent.length = 3)
    (hnj : ex.nrm_jitter.length = 3)
    (hps : ∀ o, (ex.prepare_shading_normal o).length = 3)
    (hopt : ∀ s, (ex.optixShade s).1.length = 3 ∧ (ex.optixShade s).2.length = 3)
    (hana : ∀ b, (ex.analyticShade b).length = 3)
    (hden : ∀ x, (ex.denoise x).length = 3)
    (hcano : ∀ c, cano_pos = some c → c.length = 3)
    (h : shade ex material bsdf lgt optix_ctx denoiser gb_pos gb_normal gb_tangent
        gb_depth cano_pos msk seed = .ok (bufs, s2)) :
    ∀ kv ∈ bufs,
      kv.2.getLast? = (albedoAlpha (tex.take (tex.length - 6))).head? ∧
      kv.2.length = (if kv.1 = "occlusion" then 2
                     else if kv.1 = "kd_grad" then tex.length - 6 + 1 else 4) := by
  obtain ⟨t, tag, out, ht, htag, hd, hbufs, hs⟩ :=
    shade_ok_elim ex material bsdf lgt optix_ctx denoiser gb_pos gb_normal gb_tangent
      gb_depth cano_pos msk seed bufs s2 h
  rw [hch] at ht hd
  simp only [texture_lookups] at ht
  rw [if_pos hn] at ht
  replace ht := Except.ok.inj ht
  subst ht
  dsimp only at hbufs hd
  -- component lengths
  have hkd3 : ((tex.take (tex.length - 6)).take 3).length = 3 := by
    simp only [List.length_take]
    rcases hn with h9 | h10 <;> omega
  have hks3 : ((tex.drop (tex.length - 6)).take 3).length = 3 := by
    simp only [List.length_take, List.length_drop]
    rcases hn with h9 | h10 <;> omega
  have hksg3 : (List.zipWith (· * ·)
      (absDiff ((texJ.drop (texJ.length - 6)).take 3) ((tex.drop (tex.length - 6)).take 3))
      mask001).length = 3 := by
    simp only [absDiff, mask001, List.length_zipWith, List.length_take, List.length_drop,
      List.length_cons, List.length_nil]
    rcases hn with h9 | h10 <;> omega
  have hkg : (absDiff (texJ.take (texJ.length - 6)) (tex.take (tex.length - 6))).length =
      tex.length - 6 := by
    simp only [absDiff, List.length_zipWith, List.length_take]
    omega
  have hng3 : (((absDiff ex.nrm_jitter gb_normal).map
      (· * ((if msk then (1:ℚ) else 0) * ex.mask_tap)))).length = 3 := by
    simp [absDiff, hnj, hgn]
  have hcp : ∀ c, canoResolve (.combined tex texJ) cano_pos gb_pos = some c →
      c.length = 3 := by
    intro c hc
    replace hc := Option.some.inj hc
    subst hc
    cases hcv : cano_pos with
    | none => simpa [hcv] using hgp
    | some y => simpa [hcv] using hcano y hcv
  obtain ⟨hcol, hob⟩ := shadeDispatch_ok_shape ex tag lgt optix_ctx denoiser _ _ _ _ _ _ _ _
    hkd3 hks3 (hps _) htg hcp hopt hana hden hd
  have hpos : 0 < (tex.take (tex.length - 6)).length := by
    simp only [List.length_take]
    rcases hn with h9 | h10 <;> omega
  obtain ⟨a, ha⟩ := albedoAlpha_singleton _ hpos
  rw [ha] at hbufs
  subst hbufs
  intro kv hkv
  have hmain := mkBuffers_shape _ _ _ _ _ _ _ a _
    hcol hksg3 hng3 (by omega) hgp (hps _) hob kv hkv
  refine ⟨?_, ?_⟩
  · rw [hmain.1, ha]
    rfl
  · rw [hmain.2, hkg]
/-- C1 (counterexample): a concrete successful 10-channel `kd_ks_normal`
run in which the `occlusion` buffer has 2 channels and the `kd_grad` buffer
has 5, so not every returned buffer has exactly 4 channels. -/
theorem shade_buffers_not_all_four_channel :
    isErr shadeC1run = false ∧
    (okBufs shadeC1run).map (fun kv => (kv.1, kv.2.length)) =
      [("shaded", 4), ("kd_grad", 5), ("ks_grad", 4), ("normal_grad", 4),
       ("occlusion", 2), ("gb_pos", 4), ("gb_normal", 4)] ∧
    ((okBufs shadeC1run).map (fun kv => kv.2.length)).all (fun n => n == 4) = false := by
  refine ⟨rfl, by decide, by decide⟩

/-- C1 witness: the amended theorem applied to the concrete 9-channel run
`shadeC7run` at its `shaded` buffer `[5, 4, 3, 1]`. -/
theorem shade_buffer_shapes_amended_witness :
    (("shaded", ([5, 4, 3, 1] : List ℚ)) : String × List ℚ).2.getLast? =
      (albedoAlpha (([5, 4, 3, 2, 1, 0, 1, 2, 3] : List ℚ).take
        (([5, 4, 3, 2, 1, 0, 1, 2, 3] : List ℚ).length - 6))).head? ∧
    (("shaded", ([5, 4, 3, 1] : List ℚ)) : String × List ℚ).2.length =
      (if ("shaded" : String) = "occlusion" then 2
       else if ("shaded" : String) = "kd_grad" then
         ([5, 4, 3, 2, 1, 0, 1, 2, 3] : List ℚ).length - 6 + 1 else 4) :=
  shade_buffer_shapes_amended exW mW9 none Light.env false false [1, 2, 3] [0, 1, 0]
    [1, 0, 0] [1/2, 0] none true 0
    [5, 4, 3, 2, 1, 0, 1, 2, 3] [1, 1, 7, 1, 1, 1, 1, 1, 1] (okBufs shadeC7run) 0
    rfl (Or.inl rfl) rfl rfl rfl rfl rfl (fun _ => rfl) (fun _ => ⟨rfl, rfl⟩)
    (fun _ => rfl) (fun _ => rfl) (fun _ hc => nomatch hc) rfl
    ("shaded", [5, 4, 3, 1]) (by decide)
end Render
